import Mathlib

/-!
Verification of the AI-OS daemon (saquib34/ai-os).

Shallow embedding of the userspace daemon's pure algorithmic core:
the safety gate (`ai_daemon.c`), command-history and context tracking
(`context_manager.c`), the feedback store (`learning_system.c`), the
model registry, task classifier and selector (`model_manager.c`), and
the request dispatch router (`ai_daemon.c`).

Modelling conventions:
* C `float`/`double` arithmetic is modelled exactly over `ℚ`;
* fixed-size character buffers hold unbounded `String`s (the claims
  under study concern structure, not byte-level truncation);
* OS effects (getcwd, getpwuid, popen, time, the Ollama HTTP backend)
  are passed in explicitly as oracle records;
* mutex acquisition always succeeds (single-threaded abstraction).
-/

namespace AiOS

/-! ### String helpers (C `strstr`, `tolower`) -/

/-- Is `needle` a contiguous infix of the character list? (C `strstr ≠ NULL`.) -/
def is_infix_chars (needle : List Char) : List Char → Bool
  | [] => needle.isEmpty
  | c :: rest => needle.isPrefixOf (c :: rest) || is_infix_chars needle rest

/-- C `strstr hay needle != NULL`: `needle` occurs as a substring of `hay`. -/
def strstr (hay needle : String) : Bool :=
  is_infix_chars needle.toList hay.toList

/-- Byte-wise `tolower` loop from `classify_task_type` (ASCII). -/
def to_lower (s : String) : String :=
  String.mk (s.toList.map Char.toLower)

/-- Split a character list at a separator character (used to model
`strtok(task_types, ",")` and, for the claim-side keyword matcher, the
`|`-separated keyword groups). -/
def split_on_char (sep : Char) : List Char → List Char → List String
  | [], acc => [String.mk acc.reverse]
  | c :: rest, acc =>
    if c = sep then String.mk acc.reverse :: split_on_char sep rest []
    else split_on_char sep rest (c :: acc)

/-- Strip leading and trailing spaces (the manual trim loop inside
`model_supports_task`). -/
def trim_spaces (s : String) : String :=
  String.mk (((s.toList.dropWhile (· = ' ')).reverse.dropWhile (· = ' ')).reverse)

/-! ### Safety gate (`ai_daemon.c`, `is_safe_command`) -/

/-- The destructive-command blocklist that appears (commented out) in
`is_safe_command` in `ai_daemon.c`. -/
def dangerous_patterns : List String :=
  ["rm -rf /", "rm -rf /*", "dd if=", "mkfs", "format", "fdisk", "parted",
   "shutdown", "reboot", "halt", "poweroff", "kill -9 1", "chmod 777 /",
   "chown root:root /", "> /dev/sda", "> /dev/sdb", "wget http://",
   "curl http://", ":()\x7b :|:& \x7d;:"]

/-- The sudo-specific blocklist from the same commented-out code. -/
def sudo_dangerous : List String :=
  ["sudo rm -rf", "sudo dd", "sudo mkfs", "sudo fdisk", "sudo parted"]

/-- `is_safe_command` as it is actually compiled: the function body is
`return 1;` — every command is classified safe.  (The pattern matching
logic below it is commented out in the source.) -/
def is_safe_command (_command : String) : Int := 1

/-- The original (commented-out) safety logic of `is_safe_command`,
embedded from the source text: empty commands are unsafe, commands
containing a dangerous pattern are unsafe, `sudo ` commands containing a
dangerous sudo pattern are unsafe, everything else is safe. -/
def original_is_safe_command (command : String) : Int :=
  if command = "" then 0
  else if dangerous_patterns.any (fun p => strstr command p) then 0
  else if strstr command "sudo " && sudo_dangerous.any (fun p => strstr command p) then 0
  else 1

/-! ### Context tracker (`context_manager.c`) -/

/-- Results of the OS queries `ai_context_create` / `ai_context_update`
perform; `none` models the corresponding call failing. -/
structure os_env where
  getcwd : Option String
  passwd : Option (String × String)
  gethostname : Option String
  environ : Option String
  ps_output : Option String
  ss_output : Option String
  df_output : Option String
  uid : Int
  now : Int
deriving DecidableEq

/-- The `ai_context_t` record of `ai_os_common.h` (the 50-slot command
ring is the `recent_commands` list). -/
structure ai_context_t where
  current_directory : String
  username : String
  shell : String
  hostname : String
  git_branch : String
  git_status : String
  recent_commands : List String
  file_listing : String
  system_info : String
  last_update : Int
  process_id : Int
  user_id : Int
  env_vars : String
  running_processes : String
  open_ports : String
  disk_usage : String
deriving DecidableEq

/-- `get_current_directory`: `getcwd`, or `"/"` on failure. -/
def get_current_directory (env : os_env) : String := env.getcwd.getD "/"

/-- `get_user_info` (username part): `getpwuid`, or `"unknown"`. -/
def get_user_info_name (env : os_env) : String :=
  match env.passwd with
  | some (n, _) => n
  | none => "unknown"

/-- `get_user_info` (shell part): `getpwuid`, or `"/bin/bash"`. -/
def get_user_info_shell (env : os_env) : String :=
  match env.passwd with
  | some (_, sh) => sh
  | none => "/bin/bash"

/-- `get_hostname`: `gethostname`, or `"localhost"`. -/
def get_hostname (env : os_env) : String := env.gethostname.getD "localhost"

/-- `ai_context_create`: zero the record, then best-effort populate every
field; sub-source failures leave the field at its default. -/
def ai_context_create (env : os_env) (pid : Int) : ai_context_t :=
  { current_directory := get_current_directory env
    username := get_user_info_name env
    shell := get_user_info_shell env
    hostname := get_hostname env
    git_branch := ""
    git_status := ""
    recent_commands := []
    file_listing := ""
    system_info := ""
    last_update := env.now
    process_id := pid
    user_id := env.uid
    env_vars := env.environ.getD ""
    running_processes := env.ps_output.getD ""
    open_ports := env.ss_output.getD ""
    disk_usage := env.df_output.getD "" }

/-- `ai_context_update`: re-runs `get_current_directory`, `get_user_info`
and `get_hostname` and stamps `last_update`; no other field is touched. -/
def ai_context_update (env : os_env) (ctx : ai_context_t) : ai_context_t :=
  { ctx with
    current_directory := get_current_directory env
    username := get_user_info_name env
    shell := get_user_info_shell env
    user_id := env.uid
    hostname := get_hostname env
    last_update := env.now }

/-- `ai_context_needs_refresh`: older than 5 seconds. -/
def ai_context_needs_refresh (now : Int) (ctx : ai_context_t) : Bool :=
  now - ctx.last_update > 5

/-- `ai_context_to_summary`: `"User: user@host in dir"`. -/
def ai_context_to_summary (ctx : ai_context_t) : String :=
  "User: " ++ ctx.username ++ "@" ++ ctx.hostname ++ " in " ++ ctx.current_directory

/-- `MAX_HISTORY_ENTRIES` in `context_manager.c`. -/
def MAX_HISTORY_ENTRIES : Nat := 50

/-- The history mutation inside `ai_context_add_command`: when the ring
is full, every entry is shifted down one slot (dropping the oldest) and
the new command is appended. -/
def add_command_hist (hist : List String) (command : String) : List String :=
  if MAX_HISTORY_ENTRIES ≤ hist.length then hist.drop 1 ++ [command]
  else hist ++ [command]

/-- `ai_context_add_command`, including the NULL-argument guards: returns
`-1` leaving the context untouched when either pointer is NULL, else
appends to the ring and returns `0`. -/
def ai_context_add_command :
    Option ai_context_t → Option String → Option ai_context_t × Int
  | none, _ => (none, -1)
  | some ctx, none => (some ctx, -1)
  | some ctx, some command =>
    (some { ctx with recent_commands := add_command_hist ctx.recent_commands command }, 0)

/-! ### Feedback store (`learning_system.c`) -/

/-- `MAX_FEEDBACK_ENTRIES`. -/
def MAX_FEEDBACK_ENTRIES : Nat := 1000

/-- `feedback_entry_t`. -/
structure feedback_entry where
  natural_command : String
  interpreted_command : String
  accepted : Bool
  model_used : String
  timestamp : Int
deriving DecidableEq

/-- The in-memory store (`feedback_db`) plus the persisted file contents
(`/etc/ai-os/feedback.json`), so that persistence-on-mutation is
observable in the model. -/
structure learning_state where
  db : List feedback_entry
  file : List feedback_entry
deriving DecidableEq

/-- `learning_system_save_feedback`: serialize the whole store to the
feedback file. -/
def learning_system_save_feedback (st : learning_state) : learning_state :=
  { st with file := st.db }

/-- `learning_system_add_feedback`: evict the oldest entry when at
capacity, append the new entry, then persist the full store. -/
def learning_system_add_feedback (st : learning_state) (natural interpreted : String)
    (accepted : Bool) (model : String) (now : Int) : learning_state :=
  let db := if MAX_FEEDBACK_ENTRIES ≤ st.db.length then st.db.drop 1 else st.db
  let db := db ++ [⟨natural, interpreted, accepted, model, now⟩]
  learning_system_save_feedback { st with db := db }

/-! ### Model registry and selector (`model_manager.c`) -/

/-- `ai_model_config_t`; float fields are modelled over `ℚ`. -/
structure ai_model_config_t where
  name : String
  description : String
  api_url : String
  max_tokens : Int
  temperature : ℚ
  timeout : Int
  task_types : String
  performance_score : ℚ
  success_count : Nat
  failure_count : Nat
  avg_response_time : ℚ
  priority : Int
  enabled : Bool

/-- Registry entry 0: `codellama:7b-instruct`. -/
def codellama_7b : ai_model_config_t :=
  { name := "codellama:7b-instruct"
    description := "Code-focused model for development tasks"
    api_url := "http://localhost:11434/api"
    max_tokens := 512, temperature := 0.1, timeout := 30
    task_types := "dev_ops,file_ops,system_ops"
    performance_score := 0.85, success_count := 0, failure_count := 0
    avg_response_time := 0, priority := 1, enabled := true }

/-- Registry entry 1: `phi3:mini`. -/
def phi3_mini : ai_model_config_t :=
  { name := "phi3:mini"
    description := "Fast general-purpose model"
    api_url := "http://localhost:11434/api"
    max_tokens := 256, temperature := 0.2, timeout := 15
    task_types := "general,file_ops,process_ops"
    performance_score := 0.75, success_count := 0, failure_count := 0
    avg_response_time := 0, priority := 2, enabled := true }

/-- Registry entry 2: `llama3.2:3b`. -/
def llama32_3b : ai_model_config_t :=
  { name := "llama3.2:3b"
    description := "Balanced model for mixed tasks"
    api_url := "http://localhost:11434/api"
    max_tokens := 384, temperature := 0.15, timeout := 20
    task_types := "general,network_ops,data_ops"
    performance_score := 0.80, success_count := 0, failure_count := 0
    avg_response_time := 0, priority := 3, enabled := true }

/-- Registry entry 3: `mistral:7b-instruct`. -/
def mistral_7b : ai_model_config_t :=
  { name := "mistral:7b-instruct"
    description := "High-quality model for complex tasks"
    api_url := "http://localhost:11434/api"
    max_tokens := 1024, temperature := 0.1, timeout := 45
    task_types := "security_ops,dev_ops,system_ops"
    performance_score := 0.90, success_count := 0, failure_count := 0
    avg_response_time := 0, priority := 0, enabled := true }

/-- The built-in `model_registry`. -/
def model_registry : List ai_model_config_t :=
  [codellama_7b, phi3_mini, llama32_3b, mistral_7b]

/-- The eight task types, in the enumeration order of
`classify_task_type`'s `task_types` array. -/
def task_types_list : List String :=
  ["file_ops", "process_ops", "network_ops", "system_ops",
   "dev_ops", "data_ops", "security_ops", "general"]

/-- `task_patterns`: (task type, pattern literal) pairs, verbatim from the
source.  Note the second component is a single C string; the code passes
the whole string to `strstr`. -/
def task_patterns : List (String × String) :=
  [("file_ops", "file|files|document|folder|directory|path|ls|find|grep|cat|head|tail|cp|mv|rm|mkdir|touch"),
   ("file_ops", "show.*file|list.*file|create.*file|delete.*file|move.*file|copy.*file"),
   ("process_ops", "process|processes|ps|kill|pkill|pgrep|top|htop|systemctl|service|daemon"),
   ("process_ops", "show.*process|list.*process|kill.*process|start.*service|stop.*service"),
   ("network_ops", "network|networking|connection|port|socket|http|https|ftp|ssh|telnet|ping|curl|wget"),
   ("network_ops", "check.*connection|test.*network|show.*ports|list.*connections"),
   ("system_ops", "system|hardware|cpu|memory|ram|disk|storage|performance|monitor|resource"),
   ("system_ops", "show.*memory|check.*disk|monitor.*system|system.*info"),
   ("dev_ops", "code|coding|development|programming|compile|build|deploy|git|github|repository"),
   ("dev_ops", "git.*push|git.*pull|git.*commit|build.*project|deploy.*application"),
   ("data_ops", "data|database|db|sql|nosql|query|search|filter|sort|export|import"),
   ("data_ops", "search.*data|query.*database|export.*data|import.*data"),
   ("security_ops", "security|permission|access|authentication|authorization|login|user|group|sudo"),
   ("security_ops", "check.*permissions|set.*permissions|security.*scan|user.*management")]

/-- The `task_scores` array after the pattern loop of
`classify_task_type`: for each task type, the number of pattern rows of
that type whose *entire pattern string* occurs in the lower-cased
command (`strstr(lower_command, pattern)`). -/
def task_scores (command : String) : List Nat :=
  let lc := to_lower command
  task_types_list.map
    (fun t => (task_patterns.filter (fun p => p.1 == t && strstr lc p.2)).length)

/-- The arg-max loop of `classify_task_type` (`for i in 0..6`, strict
improvement only, so ties keep the earlier index; `best` starts at 7 =
GENERAL). -/
def select_loop : List Nat → Nat → Nat → Nat → Nat
  | [], _, _, best => best
  | s :: rest, i, max_score, best =>
    if max_score < s then select_loop rest (i + 1) s i
    else select_loop rest (i + 1) max_score best

/-- `classify_task_type`. -/
def classify_task_type (command : String) : String :=
  task_types_list.getD (select_loop ((task_scores command).take 7) 0 0 7) "general"

/-- Keyword-level scores following the words of the claim/spec
("plain substring matching of individual keywords"): a pattern row
counts when *any one* of its `|`-separated keywords occurs in the
lower-cased command.  Kept only to compare against `task_scores`, which
is what the code computes. -/
def claim_keyword_scores (command : String) : List Nat :=
  let lc := to_lower command
  task_types_list.map
    (fun t => (task_patterns.filter
      (fun p => p.1 == t && (split_on_char '|' p.2.toList []).any (fun kw => strstr lc kw))).length)

/-- Classifier following the claim's keyword-matching reading, with the
same arg-max rule. -/
def claim_classify_keywords (command : String) : String :=
  task_types_list.getD (select_loop ((claim_keyword_scores command).take 7) 0 0 7) "general"

/-- `model_supports_task`: split the comma-separated `task_types` field,
trim spaces, compare. -/
def model_supports_task (m : ai_model_config_t) (t : String) : Bool :=
  ((split_on_char ',' m.task_types.toList []).map trim_spaces).contains t

/-- The composite score computed inside `select_best_model`'s loop. -/
def composite_score (m : ai_model_config_t) : ℚ :=
  let score := m.performance_score
  let score := if 0 < m.avg_response_time then score - m.avg_response_time / 10 else score
  let total : Nat := m.success_count + m.failure_count
  let score :=
    if 0 < total then score * 0.7 + ((m.success_count : ℚ) / (total : ℚ)) * 0.3
    else score
  score + (10 - (m.priority : ℚ)) * 0.01

/-- The selection loop of `select_best_model`: `best_score` starts at
`-1.0`, disabled or non-supporting profiles are skipped, and a profile
is recorded only on strict improvement. -/
def select_best_loop (t : String) : List ai_model_config_t → Nat → ℚ → Option Nat → Option Nat
  | [], _, _, best => best
  | m :: rest, i, best_score, best =>
    if m.enabled && model_supports_task m t then
      if best_score < composite_score m then
        select_best_loop t rest (i + 1) (composite_score m) (some i)
      else select_best_loop t rest (i + 1) best_score best
    else select_best_loop t rest (i + 1) best_score best

/-- `select_best_model`, returning the index of the chosen registry
entry; when no profile was recorded it falls back to entry 0. -/
def select_best_model (registry : List ai_model_config_t) (t : String) : Nat :=
  (select_best_loop t registry 0 (-1) none).getD 0

/-- `model_manager_t` (the mutexes and config-file path are dropped; the
registry is carried in the state since the C globals are mutable). -/
structure model_manager_t where
  registry : List ai_model_config_t
  current_model : Nat
  auto_switch_enabled : Bool
  learning_enabled : Bool
  last_switch : Int
  switch_cooldown : Int

/-- The state `model_manager_init` establishes (defaults, before any
config file is applied): auto-switch on, learning on, 300 s cooldown,
`last_switch = 0`, current model = registry entry 0. -/
def model_manager_init : model_manager_t :=
  { registry := model_registry
    current_model := 0
    auto_switch_enabled := true
    learning_enabled := true
    last_switch := 0
    switch_cooldown := 300 }

/-- `model_manager_select_model`: no-op when auto-switching is off or the
cooldown has not elapsed; otherwise classify, pick the best profile, and
commit the switch (stamping `last_switch`) only when it differs from the
current one.  Returns 1 iff a switch happened. -/
def model_manager_select_model (mm : model_manager_t) (now : Int) (command : String) :
    model_manager_t × Int :=
  if !mm.auto_switch_enabled then (mm, 0)
  else if now - mm.last_switch < mm.switch_cooldown then (mm, 0)
  else
    let t := classify_task_type command
    let best := select_best_model mm.registry t
    if best ≠ mm.current_model then
      ({ mm with current_model := best, last_switch := now }, 1)
    else (mm, 0)

/-- The per-profile mutation performed by `model_manager_update_stats`
once the profile is found: bump a counter, update the running average,
and recompute the performance score after 10 or more requests. -/
def update_stats_entry (m0 : ai_model_config_t) (success : Bool) (response_time : ℚ) :
    ai_model_config_t :=
  let m1 := if success then { m0 with success_count := m0.success_count + 1 }
            else { m0 with failure_count := m0.failure_count + 1 }
  let total : Nat := m1.success_count + m1.failure_count
  let m2 := if total = 1 then { m1 with avg_response_time := response_time }
            else { m1 with avg_response_time :=
                     (m1.avg_response_time * ((total : ℚ) - 1) + response_time) / (total : ℚ) }
  if 10 ≤ total then
    { m2 with performance_score :=
        ((m2.success_count : ℚ) / (total : ℚ)) * 0.8 + (1 - m2.avg_response_time / 30) * 0.2 }
  else m2

/-- `model_manager_update_stats`: find the first profile with the given
name and update it; other entries (and an absent name) are untouched. -/
def model_manager_update_stats :
    List ai_model_config_t → String → Bool → ℚ → List ai_model_config_t
  | [], _, _, _ => []
  | m :: rest, name, success, rt =>
    if m.name = name then update_stats_entry m success rt :: rest
    else m :: model_manager_update_stats rest name success rt

/-- The search loop of `model_manager_set_model`: on the first name
match, return the index with code 0 when enabled and code `-1` (no
switch) when disabled; code `-2` when the name never occurs. -/
def set_model_find : List ai_model_config_t → Nat → String → Option Nat × Int
  | [], _, _ => (none, -2)
  | m :: rest, i, name =>
    if m.name = name then
      (if m.enabled then (some i, 0) else (none, -1))
    else set_model_find rest (i + 1) name

/-- `model_manager_set_model` (returns the new current index, when the
switch was committed, together with the C return code). -/
def model_manager_set_model (registry : List ai_model_config_t) (name : String) :
    Option Nat × Int :=
  set_model_find registry 0 name

/-! ### Ollama client (`ollama_client.c`, `ollama_set_model`) -/

/-- `ollama_set_model`: rejects only a NULL pointer; any actual name is
stored and `0` returned — no registry validation whatsoever.  (The mutex
timeout path is a concurrency artefact outside this model.) -/
def ollama_set_model : Option String → Int
  | none => -1
  | some _ => 0

/-! ### Dispatch router (`ai_daemon.c`, `handle_client_request`) -/

/-- The daemon-global flags relevant to dispatch. -/
structure ai_daemon_t where
  current_model : String
  safety_mode : Bool
  confirmation_required : Bool
deriving DecidableEq

/-- A parsed request envelope: `{action?, command?, model?}`. -/
structure ai_request where
  action : Option String
  command : Option String
  model : Option String
deriving DecidableEq

/-- A response object; a `none` field was never added to the JSON. -/
structure ai_response where
  status : Option String := none
  message : Option String := none
  interpreted_command : Option String := none
  execution_result : Option String := none
  exit_code : Option Int := none
  classification : Option String := none
  chat_response : Option String := none
  daemon_status : Option String := none
  ollama_status : Option String := none
  current_model : Option String := none
  available_models : Option String := none
  safety_mode : Option Bool := none
  confirmation_required : Option Bool := none
  context : Option ai_context_t := none
deriving DecidableEq

/-- The response built by the final `else` of `handle_client_request`. -/
def unknown_action_response : ai_response :=
  { status := some "error", message := some "Unknown action" }

/-- External effects of the handlers: the Ollama backend call (returning
the C result code and the text written into the output buffer), `popen`
for command execution (`none` = popen failed; otherwise captured output
and exit status), and the status-action probes. -/
structure ollama_oracle where
  interpret : String → String → Int × String
  exec : String → Option (String × Int)
  check_status : Int
  list_models : String

/-- `execute_command_safely`: append to the history ring, short-circuit
with a `CONFIRM_REQUIRED` marker in confirmation mode, otherwise run the
command and return its captured output and exit status (with the
stand-in message when the command printed nothing). -/
def execute_command_safely (d : ai_daemon_t) (or : ollama_oracle)
    (ctx : ai_context_t) (command : String) : ai_context_t × String × Int :=
  let ctx := { ctx with recent_commands := add_command_hist ctx.recent_commands command }
  if d.confirmation_required then (ctx, "CONFIRM_REQUIRED: " ++ command, 1)
  else
    match or.exec command with
    | none => (ctx, "ERROR: Failed to execute command", -1)
    | some (out, code) =>
      if out = "" then
        (ctx, "Command executed successfully (exit code: " ++ toString code ++ ")", code)
      else (ctx, out, code)

/-- The `command_actions` list of the `classify` handler, verbatim. -/
def command_actions : List String :=
  ["add", "commit", "push", "pull", "clone", "init", "status", "log", "branch", "checkout",
   "merge", "rebase", "stash", "reset", "revert", "tag", "fetch", "remote", "config",
   "list", "show", "find", "search", "grep", "cat", "head", "tail", "less", "more",
   "create", "delete", "remove", "rm", "mkdir", "touch", "cp", "copy", "mv", "move",
   "install", "uninstall", "update", "upgrade", "download", "wget", "curl", "scp", "rsync",
   "run", "start", "stop", "restart", "kill", "pkill", "killall", "ps", "top", "htop",
   "check", "test", "verify", "validate", "get", "set", "export", "import", "source",
   "open", "close", "edit", "view", "read", "write", "save", "load", "backup", "restore",
   "build", "compile", "make", "cmake", "configure", "install", "uninstall", "package",
   "mount", "umount", "format", "partition", "fsck", "dd", "tar", "zip", "unzip",
   "chmod", "chown", "chgrp", "umask", "sudo", "su", "whoami", "id", "groups",
   "ping", "traceroute", "netstat", "ss", "iptables", "firewall", "ufw",
   "docker", "podman", "kubectl", "helm", "terraform", "ansible",
   "python", "pip", "node", "npm", "yarn", "cargo", "go", "java", "maven", "gradle"]

/-- The `chat_words` list of the `classify` handler, verbatim. -/
def chat_words : List String :=
  ["hello", "hi", "hey", "good morning", "good afternoon", "good evening",
   "how are you", "how do you", "what is", "what are", "who is", "who are",
   "when is", "when will", "where is", "where are", "why is", "why are",
   "tell me", "explain", "describe", "define", "what does", "how does",
   "joke", "funny", "humor", "weather", "time", "date", "temperature",
   "thanks", "thank you", "appreciate", "help", "please", "could you",
   "would you", "can you", "should I", "do you think", "what do you think"]

/-- The command-vs-chat heuristic of the `classify` action. -/
def classify_command_or_chat (command : String) : String :=
  if command_actions.any (fun w => strstr command w) then "command"
  else "chat"

/-- The action strings `handle_client_request` recognizes. -/
inductive action_kind where
  | interpret | execute | status | set_model | get_context | classify | chat | unknown
deriving DecidableEq

/-- The `else if` chain over the action string. -/
def parse_action (a : String) : action_kind :=
  if a = "interpret" then .interpret
  else if a = "execute" then .execute
  else if a = "status" then .status
  else if a = "set_model" then .set_model
  else if a = "get_context" then .get_context
  else if a = "classify" then .classify
  else if a = "chat" then .chat
  else .unknown

/-- `handle_client_request` on an already-parsed (well-formed) request:
defaults the action to `"interpret"` when absent, refreshes a stale
context, then dispatches.  Returns the updated daemon state, the updated
client context and the response object. -/
def handle_client_request (d : ai_daemon_t) (or : ollama_oracle) (now : Int)
    (env : os_env) (ctx0 : ai_context_t) (req : ai_request) :
    ai_daemon_t × ai_context_t × ai_response :=
  let action := req.action.getD "interpret"
  let command := req.command.getD ""
  let ctx := if ai_context_needs_refresh now ctx0 then ai_context_update env ctx0 else ctx0
  match parse_action action with
  | .interpret =>
    let ir := or.interpret command (ai_context_to_summary ctx)
    if ir.1 = 0 then
      if !d.confirmation_required then
        let er := execute_command_safely d or ctx ir.2
        (d, er.1, { status := some "success", interpreted_command := some ir.2,
                    execution_result := some er.2.1, exit_code := some er.2.2 })
      else
        (d, ctx, { status := some "success", interpreted_command := some ir.2 })
    else if ir.1 = -2 then
      (d, ctx, { status := some "unsafe", message := some "Command marked as unsafe by AI" })
    else if ir.1 = -3 then
      (d, ctx, { status := some "unclear", message := some "Command unclear, please rephrase" })
    else
      (d, ctx, { status := some "error", message := some "Failed to interpret command" })
  | .execute =>
    let er := execute_command_safely d or ctx command
    (d, er.1, { status := some (if er.2.2 = 0 then "success" else "error"),
                execution_result := some er.2.1, exit_code := some er.2.2 })
  | .status =>
    (d, ctx, { daemon_status := some "running",
               ollama_status := some (if or.check_status = 0 then "running" else "not available"),
               current_model := some d.current_model,
               available_models := some or.list_models,
               safety_mode := some d.safety_mode,
               confirmation_required := some d.confirmation_required })
  | .set_model =>
    match req.model with
    | some m =>
      if ollama_set_model (some m) = 0 then
        ({ d with current_model := m }, ctx,
         { status := some "success", message := some "Model changed successfully" })
      else
        (d, ctx, { status := some "error", message := some "Failed to change model" })
    | none => (d, ctx, unknown_action_response)
  | .get_context =>
    (d, ctx, { context := some ctx, status := some "success" })
  | .classify =>
    (d, ctx, { classification := some (classify_command_or_chat command),
               status := some "success" })
  | .chat =>
    let ir := or.interpret command (ai_context_to_summary ctx)
    if ir.1 = 0 then
      (d, ctx, { chat_response := some ir.2, status := some "success" })
    else
      (d, ctx, { status := some "error", message := some "Failed to get chat response" })
  | .unknown => (d, ctx, unknown_action_response)

/-! ### Concrete sample states used to instantiate the theorems -/

/-- A daemon state with auto-execution on (confirmation not required). -/
def d0 : ai_daemon_t :=
  { current_model := "codellama:7b-instruct", safety_mode := true,
    confirmation_required := false }

/-- An oracle whose `popen` echoes the command it was given (so that a
theorem can observe that execution took place) and whose backend always
succeeds. -/
def sample_exec_oracle : ollama_oracle :=
  { interpret := fun _ _ => (0, "")
    exec := fun c => some ("ran: " ++ c, 0)
    check_status := 0
    list_models := "" }

/-- A fully-defaulted context record (what `memset(ctx, 0, ...)` gives
before any field is populated). -/
def empty_context : ai_context_t :=
  { current_directory := "", username := "", shell := "", hostname := ""
    git_branch := "", git_status := "", recent_commands := []
    file_listing := "", system_info := "", last_update := 0
    process_id := 0, user_id := 0, env_vars := ""
    running_processes := "", open_ports := "", disk_usage := "" }

/-- An environment snapshot in which every OS query succeeds. -/
def env1 : os_env :=
  { getcwd := some "/home/alice", passwd := some ("alice", "/bin/zsh")
    gethostname := some "box1", environ := some "A=1"
    ps_output := some "ps-one", ss_output := some "ss-one"
    df_output := some "df-one", uid := 1000, now := 100 }

/-- A later environment snapshot in which every OS query succeeds but
returns different values. -/
def env2 : os_env :=
  { getcwd := some "/srv", passwd := some ("bob", "/bin/sh")
    gethostname := some "box2", environ := some "B=2"
    ps_output := some "ps-two", ss_output := some "ss-two"
    df_output := some "df-two", uid := 1001, now := 200 }

/-- A profile supporting only `dev_ops` (used as registry head in the
selector counterexample). -/
def c5_m0 : ai_model_config_t :=
  { name := "dev-only", description := "", api_url := ""
    max_tokens := 256, temperature := 0.1, timeout := 30
    task_types := "dev_ops"
    performance_score := 0.85, success_count := 0, failure_count := 0
    avg_response_time := 0, priority := 1, enabled := true }

/-- An enabled profile supporting `network_ops` whose composite score is
`0 − 20/10 + (10 − 0)·0.01 = −1.9 ≤ −1`: a slow profile, as arises after
`update_stats` records responses slower than the scoring sentinel
tolerates. -/
def c5_m1 : ai_model_config_t :=
  { name := "slow-net", description := "", api_url := ""
    max_tokens := 256, temperature := 0.1, timeout := 30
    task_types := "network_ops"
    performance_score := 0, success_count := 0, failure_count := 0
    avg_response_time := 20, priority := 0, enabled := true }

/-- Registry state for the selector counterexample. -/
def c5_reg : List ai_model_config_t := [c5_m0, c5_m1]

/-- A `network_ops` profile with performance score 0.80. -/
def net080 : ai_model_config_t :=
  { name := "net-080", description := "", api_url := ""
    max_tokens := 256, temperature := 0.1, timeout := 30
    task_types := "network_ops"
    performance_score := 0.80, success_count := 0, failure_count := 0
    avg_response_time := 0, priority := 1, enabled := true }

/-- A `network_ops` profile with performance score 0.90 and the same
latency and priority as `net080`. -/
def net090 : ai_model_config_t :=
  { name := "net-090", description := "", api_url := ""
    max_tokens := 256, temperature := 0.1, timeout := 30
    task_types := "network_ops"
    performance_score := 0.90, success_count := 0, failure_count := 0
    avg_response_time := 0, priority := 1, enabled := true }

/-- Registry holding the two `network_ops` profiles of the spec's
selection example. -/
def net_reg : List ai_model_config_t := [net080, net090]

/-- The built-in registry with `phi3:mini` disabled (as a loaded
configuration can arrange). -/
def c8_disabled_registry : List ai_model_config_t :=
  [codellama_7b, { phi3_mini with enabled := false }, llama32_3b, mistral_7b]

/-! ### FIFO ring lemma, shared by the history ring and the feedback store -/

/-- Folding a capacity-bounded FIFO append over a list, starting from the
empty store, retains exactly the suffix of the most recent `cap`
insertions, in insertion order. -/
theorem foldl_fifo_drop {α : Type} (cap : Nat) (hcap : 0 < cap) (f : List α → α → List α)
    (hf : ∀ (l : List α) (x : α), f l x = (if cap ≤ l.length then l.drop 1 else l) ++ [x]) :
    ∀ xs : List α, xs.foldl f [] = xs.drop (xs.length - cap) := by
  intro xs
  induction xs using List.reverseRecOn with
  | nil => simp
  | append_singleton xs x ih =>
    rw [List.foldl_append, List.foldl_cons, List.foldl_nil, hf, ih]
    rcases Nat.lt_or_ge xs.length cap with h | h
    · have hk : xs.length - cap = 0 := by omega
      have hk' : (xs ++ [x]).length - cap = 0 := by
        simp only [List.length_append, List.length_singleton]; omega
      rw [hk, hk', List.drop_zero, List.drop_zero, if_neg (by simp only [not_le]; omega)]
    · have hlen : (xs.drop (xs.length - cap)).length = cap := by
        rw [List.length_drop]; omega
      rw [if_pos (le_of_eq hlen.symm), List.drop_drop]
      have h2 : (xs ++ [x]).length - cap = 1 + (xs.length - cap) := by
        simp only [List.length_append, List.length_singleton]; omega
      rw [h2, List.drop_append_of_le_length (by omega)]
      have h3 : xs.length - cap + 1 = 1 + (xs.length - cap) := by omega
      rw [h3]

/-! ### Claim C1 — the safety gate -/

/-- C1, counterexample: the command `"rm -rf /"` matches the destructive
blocklist (the commented-out `original_is_safe_command` classifies it
unsafe), yet the compiled `is_safe_command` classifies it SAFE, and
`execute_command_safely` executes it (the oracle records `"ran: …"`)
without ever consulting the gate. -/
theorem C1_counterexample :
    original_is_safe_command "rm -rf /" = 0
    ∧ is_safe_command "rm -rf /" = 1
    ∧ execute_command_safely d0 sample_exec_oracle empty_context "rm -rf /"
        = ({ empty_context with recent_commands := ["rm -rf /"] }, "ran: rm -rf /", 0) :=
  ⟨by decide, rfl, by decide⟩

/-- C1, amended: `is_safe_command` unconditionally classifies every
command SAFE (the destructive-pattern blocklist survives only as
commented-out code), and command execution never consults the gate: with
confirmation mode off, any command — including ones matching the
blocklist — is handed to `popen` and its real output and exit status
returned. -/
theorem C1_gate_disabled :
    (∀ command : String, is_safe_command command = 1)
    ∧ (∀ (d : ai_daemon_t) (or : ollama_oracle) (ctx : ai_context_t)
        (command out : String) (code : Int),
        d.confirmation_required = false → or.exec command = some (out, code) → out ≠ "" →
        execute_command_safely d or ctx command
          = ({ ctx with recent_commands := add_command_hist ctx.recent_commands command },
             out, code)) := by
  refine ⟨fun _ => rfl, ?_⟩
  intro d or ctx command out code hconf hexec hout
  simp [execute_command_safely, hconf, hexec, hout]

/-- C1, witness: the amended theorem applied to the blocklisted command
`"rm -rf /"` under the echoing oracle. -/
theorem C1_gate_disabled_witness :
    d0.confirmation_required = false
    ∧ sample_exec_oracle.exec "rm -rf /" = some ("ran: rm -rf /", 0)
    ∧ "ran: rm -rf /" ≠ ""
    ∧ execute_command_safely d0 sample_exec_oracle empty_context "rm -rf /"
        = ({ empty_context with
              recent_commands := add_command_hist empty_context.recent_commands "rm -rf /" },
           "ran: rm -rf /", 0) :=
  ⟨rfl, rfl, by decide,
   C1_gate_disabled.2 d0 sample_exec_oracle empty_context "rm -rf /" "ran: rm -rf /" 0
     rfl rfl (by decide)⟩

/-! ### Claim C6 — the 50-slot command history ring -/

/-- C6: for every sequence of insertions into a fresh context, the
history is exactly the suffix of the most recent `min 50 k` commands in
insertion order (so its length never exceeds 50), and
`ai_context_add_command` succeeds (returns 0) on every non-NULL context
and command. -/
theorem C6_history_ring :
    (∀ cmds : List String, cmds.foldl add_command_hist [] = cmds.drop (cmds.length - 50))
    ∧ (∀ cmds : List String, (cmds.foldl add_command_hist []).length ≤ 50)
    ∧ (∀ (ctx : ai_context_t) (command : String),
        ai_context_add_command (some ctx) (some command)
          = (some { ctx with recent_commands := add_command_hist ctx.recent_commands command },
             0)) := by
  have hmain : ∀ cmds : List String,
      cmds.foldl add_command_hist [] = cmds.drop (cmds.length - 50) :=
    foldl_fifo_drop 50 (by omega) add_command_hist (fun l x => by
      by_cases h : 50 ≤ l.length <;> simp [add_command_hist, MAX_HISTORY_ENTRIES, h])
  refine ⟨hmain, fun cmds => ?_, fun ctx command => rfl⟩
  rw [hmain, List.length_drop]
  omega

/-! ### Claim C3 — the feedback store -/

/-- C3: for every sequence of `record` calls on a fresh feedback store,
the store is exactly the suffix of the most recent `min 1000 k` entries
in insertion order (FIFO eviction of the oldest; in particular, 1001
insertions leave 1000 entries with the first absent), and the full store
is persisted to the feedback file after every record. -/
theorem C3_feedback_store :
    ∀ entries : List feedback_entry,
      ((entries.foldl (fun st e =>
          learning_system_add_feedback st e.natural_command e.interpreted_command
            e.accepted e.model_used e.timestamp) ⟨[], []⟩).db
        = entries.drop (entries.length - 1000))
      ∧ ((entries.foldl (fun st e =>
          learning_system_add_feedback st e.natural_command e.interpreted_command
            e.accepted e.model_used e.timestamp) ⟨[], []⟩).db.length
        = min entries.length 1000)
      ∧ ((entries.foldl (fun st e =>
          learning_system_add_feedback st e.natural_command e.interpreted_command
            e.accepted e.model_used e.timestamp) ⟨[], []⟩).file
        = (entries.foldl (fun st e =>
          learning_system_add_feedback st e.natural_command e.interpreted_command
            e.accepted e.model_used e.timestamp) ⟨[], []⟩).db) := by
  have hdb : ∀ (entries : List feedback_entry) (st : learning_state),
      (entries.foldl (fun st e =>
          learning_system_add_feedback st e.natural_command e.interpreted_command
            e.accepted e.model_used e.timestamp) st).db
        = entries.foldl
            (fun l e => (if 1000 ≤ l.length then l.drop 1 else l) ++ [e]) st.db := by
    intro entries
    induction entries with
    | nil => intro st; rfl
    | cons e rest ih =>
      intro st
      rw [List.foldl_cons, List.foldl_cons, ih]
      rfl
  have hfile : ∀ (entries : List feedback_entry) (st : learning_state),
      st.file = st.db →
      (entries.foldl (fun st e =>
          learning_system_add_feedback st e.natural_command e.interpreted_command
            e.accepted e.model_used e.timestamp) st).file
        = (entries.foldl (fun st e =>
          learning_system_add_feedback st e.natural_command e.interpreted_command
            e.accepted e.model_used e.timestamp) st).db := by
    intro entries
    induction entries with
    | nil => intro st h; exact h
    | cons e rest ih =>
      intro st _
      rw [List.foldl_cons]
      exact ih _ rfl
  intro entries
  have h1 := hdb entries ⟨[], []⟩
  have h2 := foldl_fifo_drop 1000 (by omega)
    (fun l (e : feedback_entry) => (if 1000 ≤ l.length then l.drop 1 else l) ++ [e])
    (fun l x => rfl) entries
  refine ⟨by rw [h1]; exact h2, ?_, hfile entries ⟨[], []⟩ rfl⟩
  rw [h1, h2, List.length_drop]
  omega

/-! ### Claim C7 — context refresh -/

/-- C7, counterexample: after `ai_context_update` against a changed
environment (`env2`), the environment-variable field still holds the
value captured at creation time from `env1`, while `ai_context_create`
run against `env2` — the behaviour the claim promises for refresh —
captures the new value. -/
theorem C7_counterexample :
    (ai_context_update env2 (ai_context_create env1 0)).env_vars = "A=1"
    ∧ (ai_context_create env2 0).env_vars = "B=2"
    ∧ (ai_context_update env2 (ai_context_create env1 0)).env_vars
        ≠ (ai_context_create env2 0).env_vars := by
  refine ⟨rfl, rfl, ?_⟩
  decide

/-- C7, amended: `refresh` re-populates only the working directory, user
name, shell, user id and host name (with `create`'s best-effort
fallbacks) and stamps `last_update`; the environment-variable snapshot,
process list, listening ports, disk usage and command history are left
at their previous values. -/
theorem C7_refresh_partial (env : os_env) (ctx : ai_context_t) :
    (ai_context_update env ctx).current_directory
        = (ai_context_create env ctx.process_id).current_directory
    ∧ (ai_context_update env ctx).username = (ai_context_create env ctx.process_id).username
    ∧ (ai_context_update env ctx).shell = (ai_context_create env ctx.process_id).shell
    ∧ (ai_context_update env ctx).hostname = (ai_context_create env ctx.process_id).hostname
    ∧ (ai_context_update env ctx).user_id = env.uid
    ∧ (ai_context_update env ctx).last_update = env.now
    ∧ (ai_context_update env ctx).env_vars = ctx.env_vars
    ∧ (ai_context_update env ctx).running_processes = ctx.running_processes
    ∧ (ai_context_update env ctx).open_ports = ctx.open_ports
    ∧ (ai_context_update env ctx).disk_usage = ctx.disk_usage
    ∧ (ai_context_update env ctx).recent_commands = ctx.recent_commands
    ∧ (ai_context_update env ctx).process_id = ctx.process_id :=
  ⟨rfl, rfl, rfl, rfl, rfl, rfl, rfl, rfl, rfl, rfl, rfl, rfl⟩

/-! ### Arg-max loop lemmas (shared by the task classifier analysis) -/

/-- Maximum of a list of naturals (0 for the empty list). -/
def nat_max_list : List Nat → Nat
  | [] => 0
  | x :: r => max x (nat_max_list r)

/-- Index of the first occurrence of `v` in a list of naturals. -/
def first_idx (v : Nat) : List Nat → Nat
  | [] => 0
  | x :: r => if x = v then 0 else first_idx v r + 1

/-- When no score beats the running maximum, the loop keeps its current
best index. -/
theorem select_loop_all_le :
    ∀ (l : List Nat) (i m b : Nat), nat_max_list l ≤ m → select_loop l i m b = b := by
  intro l
  induction l with
  | nil => intro i m b _; rfl
  | cons x r ih =>
    intro i m b h
    simp only [nat_max_list] at h
    obtain ⟨h1, h2⟩ := Nat.max_le.mp h
    simp only [select_loop, if_neg (not_lt.mpr h1)]
    exact ih _ _ _ h2

/-- When some score beats the running maximum, the loop returns the
offset of the first occurrence of the list maximum. -/
theorem select_loop_first_max :
    ∀ (l : List Nat) (i m b : Nat), m < nat_max_list l →
      select_loop l i m b = i + first_idx (nat_max_list l) l := by
  intro l
  induction l with
  | nil => intro i m b h; simp [nat_max_list] at h
  | cons x r ih =>
    intro i m b h
    simp only [nat_max_list] at h ⊢
    by_cases hx : m < x
    · rcases Nat.lt_or_ge x (nat_max_list r) with hr | hr
      · have hmax : max x (nat_max_list r) = nat_max_list r := Nat.max_eq_right (le_of_lt hr)
        rw [hmax]
        simp only [select_loop, if_pos hx, first_idx, if_neg (by omega : ¬ x = nat_max_list r)]
        rw [ih (i + 1) x i hr]
        omega
      · have hmax : max x (nat_max_list r) = x := Nat.max_eq_left hr
        rw [hmax]
        simp only [select_loop, if_pos hx, first_idx, eq_self_iff_true, if_true]
        rw [select_loop_all_le r (i + 1) x i hr]
        omega
    · have hxm : x ≤ m := not_lt.mp hx
      have hr : m < nat_max_list r := by
        rcases lt_max_iff.mp h with h' | h'
        · omega
        · exact h'
      have hmax : max x (nat_max_list r) = nat_max_list r := Nat.max_eq_right (by omega)
      rw [hmax]
      simp only [select_loop, if_neg hx, first_idx, if_neg (by omega : ¬ x = nat_max_list r)]
      rw [ih (i + 1) m b hr]
      omega

/-! ### Claim C2 — task-type classification -/

/-- C2, counterexample: on the input `"ls"`, keyword-level matching (the
claim's reading: any `|`-separated keyword of a group occurring as a
substring) classifies `file_ops`, but `classify_task_type` returns
`general`, because the code passes each *entire* pipe-joined pattern
string to `strstr` and `"ls"` does not contain any full pattern. -/
theorem C2_counterexample :
    classify_task_type "ls" = "general"
    ∧ claim_classify_keywords "ls" = "file_ops"
    ∧ classify_task_type "ls" ≠ claim_classify_keywords "ls" :=
  ⟨by decide, by decide, by decide⟩

/-- C2, amended: classification lower-cases the text and scores, for each
pattern row, whether the *entire* pipe-joined pattern literal occurs as a
substring (`strstr(lower_command, pattern)` — no regex, and no splitting
into individual keywords); the type with the highest row count wins,
ties break in enumeration order (the first seven types), and `general`
is returned whenever no row matches. -/
theorem C2_classifier (command : String) :
    classify_task_type command =
      (if nat_max_list ((task_scores command).take 7) = 0 then "general"
       else task_types_list.getD
         (first_idx (nat_max_list ((task_scores command).take 7))
           ((task_scores command).take 7)) "general") := by
  by_cases h : nat_max_list ((task_scores command).take 7) = 0
  · rw [if_pos h]
    unfold classify_task_type
    rw [select_loop_all_le _ 0 0 7 (by omega)]
    rfl
  · rw [if_neg h]
    unfold classify_task_type
    rw [select_loop_first_max _ 0 0 7 (by omega), Nat.zero_add]

/-! ### Claim C4 — model-switch cooldown -/

/-- C4: the default cooldown is 300 seconds, and whenever less than the
configured cooldown has elapsed since the last switch, an automatic
model-selection attempt returns 0 and leaves the manager state — in
particular the current model — completely unchanged, regardless of what
better-scoring profiles exist. -/
theorem C4_cooldown :
    model_manager_init.switch_cooldown = 300
    ∧ ∀ (mm : model_manager_t) (now : Int) (command : String),
        now - mm.last_switch < mm.switch_cooldown →
        model_manager_select_model mm now command = (mm, 0) := by
  refine ⟨rfl, ?_⟩
  intro mm now command h
  unfold model_manager_select_model
  cases hauto : mm.auto_switch_enabled
  · simp [hauto]
  · simp [hauto, h]

/-- C4, witness: in the freshly initialized manager (current model
`codellama:7b-instruct`, score 0.85, while the enabled `mistral`
profile scores 0.90), a selection attempt 200 s after start — inside
the 300 s cooldown — changes nothing. -/
theorem C4_cooldown_witness :
    ((200 : Int) - model_manager_init.last_switch < model_manager_init.switch_cooldown)
    ∧ model_manager_select_model model_manager_init 200 "scan the network ports"
        = (model_manager_init, 0) :=
  ⟨by decide, C4_cooldown.2 model_manager_init 200 "scan the network ports" (by decide)⟩

/-! ### Selector-loop lemmas for claim C5 -/

/-- When no eligible profile beats the running best score, the selection
loop keeps its current best. -/
theorem select_best_loop_stuck (t : String) :
    ∀ (l : List ai_model_config_t) (i : Nat) (bs : ℚ) (best : Option Nat),
      (∀ m ∈ l, (m.enabled && model_supports_task m t) = true → composite_score m ≤ bs) →
      select_best_loop t l i bs best = best := by
  intro l
  induction l with
  | nil => intro i bs best _; rfl
  | cons m r ih =>
    intro i bs best h
    by_cases he : (m.enabled && model_supports_task m t) = true
    · have hs : composite_score m ≤ bs := h m (List.mem_cons_self m r) he
      simp only [select_best_loop, if_pos he, if_neg (not_lt.mpr hs)]
      exact ih _ _ _ (fun m' hm' he' => h m' (List.mem_cons_of_mem _ hm') he')
    · simp only [select_best_loop, if_neg he]
      exact ih _ _ _ (fun m' hm' he' => h m' (List.mem_cons_of_mem _ hm') he')

/-- When some eligible profile beats the running best score, the loop
returns the offset of the first eligible profile attaining the maximal
composite score among the eligible ones. -/
theorem select_best_loop_found (t : String) :
    ∀ (l : List ai_model_config_t) (i : Nat) (bs : ℚ) (best : Option Nat),
      (∃ m ∈ l, (m.enabled && model_supports_task m t) = true ∧ bs < composite_score m) →
      ∃ j, ∃ hj : j < l.length,
        select_best_loop t l i bs best = some (i + j)
        ∧ ((l.get ⟨j, hj⟩).enabled && model_supports_task (l.get ⟨j, hj⟩) t) = true
        ∧ bs < composite_score (l.get ⟨j, hj⟩)
        ∧ (∀ k, ∀ hk : k < l.length,
            ((l.get ⟨k, hk⟩).enabled && model_supports_task (l.get ⟨k, hk⟩) t) = true →
            composite_score (l.get ⟨k, hk⟩) ≤ composite_score (l.get ⟨j, hj⟩))
        ∧ (∀ k, ∀ hk : k < l.length, k < j →
            ((l.get ⟨k, hk⟩).enabled && model_supports_task (l.get ⟨k, hk⟩) t) = true →
            composite_score (l.get ⟨k, hk⟩) < composite_score (l.get ⟨j, hj⟩)) := by
  intro l
  induction l with
  | nil =>
    intro i bs best h
    obtain ⟨m, hm, _⟩ := h
    exact absurd hm (List.not_mem_nil m)
  | cons m r ih =>
    intro i bs best hex
    by_cases he : (m.enabled && model_supports_task m t) = true
    · by_cases hs : bs < composite_score m
      · by_cases hr : ∃ m' ∈ r, (m'.enabled && model_supports_task m' t) = true
            ∧ composite_score m < composite_score m'
        · obtain ⟨j', hj', heq, he', hs', hmax', hfirst'⟩ :=
            ih (i + 1) (composite_score m) (some i) hr
          refine ⟨j' + 1, Nat.succ_lt_succ hj', ?_, he', lt_trans hs hs', ?_, ?_⟩
          · simp only [select_best_loop, if_pos he, if_pos hs]
            rw [heq]
            congr 1
            omega
          · intro k hk hke
            cases k with
            | zero => exact le_of_lt hs'
            | succ k => exact hmax' k (Nat.lt_of_succ_lt_succ hk) hke
          · intro k hk hkj hke
            cases k with
            | zero => exact hs'
            | succ k =>
              exact hfirst' k (Nat.lt_of_succ_lt_succ hk) (Nat.lt_of_succ_lt_succ hkj) hke
        · push_neg at hr
          refine ⟨0, Nat.succ_pos _, ?_, he, hs, ?_, ?_⟩
          · simp only [select_best_loop, if_pos he, if_pos hs]
            rw [select_best_loop_stuck t r (i + 1) (composite_score m) (some i)
                (fun m' hm' he' => hr m' hm' he'), Nat.add_zero]
          · intro k hk hke
            cases k with
            | zero => exact le_refl _
            | succ k => exact hr _ (List.get_mem r k _) hke
          · intro k hk hkj hke
            exact absurd hkj (Nat.not_lt_zero k)
      · have hex' : ∃ m' ∈ r, (m'.enabled && model_supports_task m' t) = true
            ∧ bs < composite_score m' := by
          obtain ⟨m'', hm'', hc, hsc⟩ := hex
          rcases List.mem_cons.mp hm'' with rfl | hmem
          · exact absurd hsc hs
          · exact ⟨m'', hmem, hc, hsc⟩
        obtain ⟨j', hj', heq, he', hs', hmax', hfirst'⟩ := ih (i + 1) bs best hex'
        refine ⟨j' + 1, Nat.succ_lt_succ hj', ?_, he', hs', ?_, ?_⟩
        · simp only [select_best_loop, if_pos he, if_neg hs]
          rw [heq]
          congr 1
          omega
        · intro k hk hke
          cases k with
          | zero => exact le_of_lt (lt_of_le_of_lt (not_lt.mp hs) hs')
          | succ k => exact hmax' k (Nat.lt_of_succ_lt_succ hk) hke
        · intro k hk hkj hke
          cases k with
          | zero => exact lt_of_le_of_lt (not_lt.mp hs) hs'
          | succ k =>
            exact hfirst' k (Nat.lt_of_succ_lt_succ hk) (Nat.lt_of_succ_lt_succ hkj) hke
    · have hex' : ∃ m' ∈ r, (m'.enabled && model_supports_task m' t) = true
          ∧ bs < composite_score m' := by
        obtain ⟨m'', hm'', hc, hsc⟩ := hex
        rcases List.mem_cons.mp hm'' with rfl | hmem
        · exact absurd hc he
        · exact ⟨m'', hmem, hc, hsc⟩
      obtain ⟨j', hj', heq, he', hs', hmax', hfirst'⟩ := ih (i + 1) bs best hex'
      refine ⟨j' + 1, Nat.succ_lt_succ hj', ?_, he', hs', ?_, ?_⟩
      · simp only [select_best_loop, if_neg he]
        rw [heq]
        congr 1
        omega
      · intro k hk hke
        cases k with
        | zero => exact absurd hke he
        | succ k => exact hmax' k (Nat.lt_of_succ_lt_succ hk) hke
      · intro k hk hkj hke
        cases k with
        | zero => exact absurd hke he
        | succ k =>
          exact hfirst' k (Nat.lt_of_succ_lt_succ hk) (Nat.lt_of_succ_lt_succ hkj) hke

/-! ### Claim C5 — model selection -/

/-- C5, counterexample: in `c5_reg`, profile 1 (`slow-net`) is enabled
and supports `network_ops` — it is the unique maximizer of the composite
score among the supporting profiles — yet its composite score (−1.9)
does not exceed the loop's `best_score` sentinel of −1.0, so the loop
records nothing and `select_best_model` falls back to registry entry 0,
which does not support `network_ops` at all. -/
theorem C5_counterexample :
    (c5_m1.enabled && model_supports_task c5_m1 "network_ops") = true
    ∧ model_supports_task c5_m0 "network_ops" = false
    ∧ composite_score c5_m1 ≤ -1
    ∧ select_best_model c5_reg "network_ops" = 0 := by
  have e0 : (c5_m0.enabled && model_supports_task c5_m0 "network_ops") = false := by decide
  have hs : ¬ ((-1 : ℚ) < composite_score c5_m1) := by
    norm_num [composite_score, c5_m1]
  refine ⟨by decide, by decide, by norm_num [composite_score, c5_m1], ?_⟩
  simp only [select_best_model, c5_reg, select_best_loop, e0, Bool.false_eq_true, if_false,
    if_neg hs, Option.getD_none]
  decide

/-- C5, amended: whenever some enabled profile supporting the task type
has composite score strictly above the `-1.0` sentinel, selection
returns the first supporting enabled profile attaining the maximal
composite score (`performanceScore`, minus `avg/10` when `avg > 0`,
blended as `score·0.7 + successRate·0.3` after a first request, plus
`(10 − priority)·0.01`); when no supporting profile exists — or every
one scores at or below −1 — the first registry entry is returned.
In particular, between two `network_ops` profiles with scores 0.80 and
0.90 and equal latency and priority, the 0.90 profile is selected. -/
theorem C5_selection :
    (∀ (registry : List ai_model_config_t) (t : String),
      (∃ m ∈ registry, (m.enabled && model_supports_task m t) = true
          ∧ (-1 : ℚ) < composite_score m) →
      ∃ j, ∃ hj : j < registry.length,
        select_best_model registry t = j
        ∧ ((registry.get ⟨j, hj⟩).enabled
            && model_supports_task (registry.get ⟨j, hj⟩) t) = true
        ∧ (∀ k, ∀ hk : k < registry.length,
            ((registry.get ⟨k, hk⟩).enabled
               && model_supports_task (registry.get ⟨k, hk⟩) t) = true →
            composite_score (registry.get ⟨k, hk⟩)
              ≤ composite_score (registry.get ⟨j, hj⟩))
        ∧ (∀ k, ∀ hk : k < registry.length, k < j →
            ((registry.get ⟨k, hk⟩).enabled
               && model_supports_task (registry.get ⟨k, hk⟩) t) = true →
            composite_score (registry.get ⟨k, hk⟩)
              < composite_score (registry.get ⟨j, hj⟩)))
    ∧ select_best_model net_reg "network_ops" = 1 := by
  constructor
  · intro registry t hex
    obtain ⟨j, hj, heq, he, _, hmax, hfirst⟩ := select_best_loop_found t registry 0 (-1) none hex
    refine ⟨j, hj, ?_, he, hmax, hfirst⟩
    rw [select_best_model, heq]
    simp
  · have e0 : (net080.enabled && model_supports_task net080 "network_ops") = true := by decide
    have e1 : (net090.enabled && model_supports_task net090 "network_ops") = true := by decide
    have s0 : (-1 : ℚ) < composite_score net080 := by
      norm_num [composite_score, net080]
    have s1 : composite_score net080 < composite_score net090 := by
      norm_num [composite_score, net080, net090]
    simp only [select_best_model, net_reg, select_best_loop, if_pos e0, if_pos s0,
      if_pos e1, if_pos s1, Option.getD_some]

/-- C5, witness: the amended selection theorem applied to the concrete
two-profile `network_ops` registry of the spec's example. -/
theorem C5_selection_witness :
    (∃ m ∈ net_reg, (m.enabled && model_supports_task m "network_ops") = true
        ∧ (-1 : ℚ) < composite_score m)
    ∧ ∃ j, ∃ hj : j < net_reg.length,
        select_best_model net_reg "network_ops" = j
        ∧ ((net_reg.get ⟨j, hj⟩).enabled
            && model_supports_task (net_reg.get ⟨j, hj⟩) "network_ops") = true
        ∧ (∀ k, ∀ hk : k < net_reg.length,
            ((net_reg.get ⟨k, hk⟩).enabled
               && model_supports_task (net_reg.get ⟨k, hk⟩) "network_ops") = true →
            composite_score (net_reg.get ⟨k, hk⟩)
              ≤ composite_score (net_reg.get ⟨j, hj⟩))
        ∧ (∀ k, ∀ hk : k < net_reg.length, k < j →
            ((net_reg.get ⟨k, hk⟩).enabled
               && model_supports_task (net_reg.get ⟨k, hk⟩) "network_ops") = true →
            composite_score (net_reg.get ⟨k, hk⟩)
              < composite_score (net_reg.get ⟨j, hj⟩)) := by
  have hmem : net080 ∈ net_reg := List.mem_cons_self _ _
  have hex : ∃ m ∈ net_reg, (m.enabled && model_supports_task m "network_ops") = true
      ∧ (-1 : ℚ) < composite_score m :=
    ⟨net080, hmem, by decide, by norm_num [composite_score, net080]⟩
  exact ⟨hex, C5_selection.1 net_reg "network_ops" hex⟩

/-! ### Claim C9 — statistics updates -/

/-- Field-level specification of one `update_stats` mutation: counters,
running-average formula (a single formula covering the first
measurement), and the conditional performance-score recomputation. -/
theorem update_stats_entry_spec (m : ai_model_config_t) (success : Bool) (rt : ℚ) :
    (update_stats_entry m success rt).success_count
        = m.success_count + (if success then 1 else 0)
    ∧ (update_stats_entry m success rt).failure_count
        = m.failure_count + (if success then 0 else 1)
    ∧ (update_stats_entry m success rt).avg_response_time
        = (m.avg_response_time * (((m.success_count + m.failure_count + 1 : Nat) : ℚ) - 1) + rt)
            / ((m.success_count + m.failure_count + 1 : Nat) : ℚ)
    ∧ (10 ≤ m.success_count + m.failure_count + 1 →
        (update_stats_entry m success rt).performance_score
          = ((update_stats_entry m success rt).success_count : ℚ)
              / ((m.success_count + m.failure_count + 1 : Nat) : ℚ) * 0.8
            + (1 - (update_stats_entry m success rt).avg_response_time / 30) * 0.2)
    ∧ (m.success_count + m.failure_count + 1 < 10 →
        (update_stats_entry m success rt).performance_score = m.performance_score) := by
  obtain ⟨nm, de, api, mt, temp, to1, tt, perf, sc, fc, avg, prio, en⟩ := m
  cases success <;>
    simp only [update_stats_entry, Bool.false_eq_true, if_true, if_false] <;>
    split_ifs with h1 h2 <;>
    (try dsimp only) <;>
    refine ⟨by omega, by omega, ?_, fun h10 => ?_, fun h10 => ?_⟩ <;>
    first
      | (exact absurd h1 (by omega))
      | (exact absurd h10 (by omega))
      | rfl
      | (first
           | (have hsc : sc = 0 := by omega
              have hfc : fc = 0 := by omega
              subst hsc; subst hfc
              norm_num)
           | (congr 1 <;> push_cast <;> ring_nf))

/-- Locating lemma for `model_manager_update_stats`: when index `i`
holds the first profile with the requested name, exactly that entry is
replaced by its updated version. -/
theorem update_stats_find :
    ∀ (registry : List ai_model_config_t) (name : String) (success : Bool) (rt : ℚ)
      (i : Nat) (hi : i < registry.length),
      (registry.get ⟨i, hi⟩).name = name →
      ((registry.take i).all (fun m => !(m.name == name))) = true →
      model_manager_update_stats registry name success rt
        = registry.set i (update_stats_entry (registry.get ⟨i, hi⟩) success rt) := by
  intro registry
  induction registry with
  | nil => intro name success rt i hi; exact absurd hi (by simp)
  | cons m r ih =>
    intro name success rt i hi hname hall
    cases i with
    | zero =>
      have hm : m.name = name := hname
      simp only [model_manager_update_stats, if_pos hm]
      rfl
    | succ i =>
      simp only [List.take_succ_cons, List.all_cons, Bool.and_eq_true] at hall
      obtain ⟨h1, h2⟩ := hall
      have hm : ¬ m.name = name := by simpa using h1
      simp only [model_manager_update_stats, if_neg hm]
      rw [ih name success rt i (Nat.lt_of_succ_lt_succ hi) hname h2]
      rfl

/-- C9: when the named profile first occurs at index `i`, `updateStats`
replaces exactly that entry; the updated entry increments the matching
counter, has running average `(oldAvg·(n−1) + latency) / n` for `n` the
new total request count (so the first measurement sets the average to
the latency), and has its performance score recomputed as
`successRate·0.8 + (1 − avgResponseTime/30)·0.2` exactly when `n ≥ 10`
(it is untouched otherwise). -/
theorem C9_update_stats (registry : List ai_model_config_t) (name : String)
    (success : Bool) (rt : ℚ) (i : Nat) (hi : i < registry.length)
    (hname : (registry.get ⟨i, hi⟩).name = name)
    (hfirst : ((registry.take i).all (fun m => !(m.name == name))) = true) :
    model_manager_update_stats registry name success rt
      = registry.set i (update_stats_entry (registry.get ⟨i, hi⟩) success rt)
    ∧ (∀ m : ai_model_config_t,
        (update_stats_entry m success rt).success_count
            = m.success_count + (if success then 1 else 0)
        ∧ (update_stats_entry m success rt).failure_count
            = m.failure_count + (if success then 0 else 1)
        ∧ (update_stats_entry m success rt).avg_response_time
            = (m.avg_response_time * (((m.success_count + m.failure_count + 1 : Nat) : ℚ) - 1) + rt)
                / ((m.success_count + m.failure_count + 1 : Nat) : ℚ)
        ∧ (10 ≤ m.success_count + m.failure_count + 1 →
            (update_stats_entry m success rt).performance_score
              = ((update_stats_entry m success rt).success_count : ℚ)
                  / ((m.success_count + m.failure_count + 1 : Nat) : ℚ) * 0.8
                + (1 - (update_stats_entry m success rt).avg_response_time / 30) * 0.2)
        ∧ (m.success_count + m.failure_count + 1 < 10 →
            (update_stats_entry m success rt).performance_score = m.performance_score)) :=
  ⟨update_stats_find registry name success rt i hi hname hfirst,
   fun m => update_stats_entry_spec m success rt⟩

/-- C9, witness: the theorem applied to the built-in registry at
`phi3:mini` (index 1; index 0 has a different name) with a successful
2-second response. -/
theorem C9_update_stats_witness :
    (1 < model_registry.length)
    ∧ ((model_registry.get ⟨1, by decide⟩).name = "phi3:mini")
    ∧ (((model_registry.take 1).all (fun m => !(m.name == "phi3:mini"))) = true)
    ∧ model_manager_update_stats model_registry "phi3:mini" true 2
        = model_registry.set 1 (update_stats_entry (model_registry.get ⟨1, by decide⟩) true 2) :=
  ⟨by decide, by decide, by decide,
   (C9_update_stats model_registry "phi3:mini" true 2 1 (by decide) (by decide) (by decide)).1⟩

/-! ### Claim C8 — `set_model` validation -/

/-- C8, counterexample: `"no-such-model"` is absent from the registry —
the registry's own validating routine `model_manager_set_model` answers
"not found" (−2) — yet a `set_model` request for it is answered
`success` and the name is committed as the daemon's current model,
because the dispatcher validates nothing: it calls `ollama_set_model`,
which accepts any non-NULL name. -/
theorem C8_counterexample :
    model_manager_set_model model_registry "no-such-model" = (none, -2)
    ∧ (handle_client_request d0 sample_exec_oracle 0 env1 empty_context
        ⟨some "set_model", none, some "no-such-model"⟩).1.current_model = "no-such-model"
    ∧ (handle_client_request d0 sample_exec_oracle 0 env1 empty_context
        ⟨some "set_model", none, some "no-such-model"⟩).2.2.status = some "success" :=
  ⟨by decide, by decide, by decide⟩

/-- C8, amended: the `set_model` request path performs no registry
validation — for every daemon state and every supplied model name the
request succeeds and the name becomes the current model.  The registry
validator `model_manager_set_model` (which the dispatcher never calls)
is the function that distinguishes the error cases: it returns −2 for a
name not in the registry, −1 for a present-but-disabled model (no
switch), and 0 — committing the switch — only for a found, enabled
model. -/
theorem C8_set_model :
    (∀ (d : ai_daemon_t) (or : ollama_oracle) (now : Int) (env : os_env)
        (ctx : ai_context_t) (c : Option String) (m : String),
      (handle_client_request d or now env ctx ⟨some "set_model", c, some m⟩).1.current_model = m
      ∧ (handle_client_request d or now env ctx ⟨some "set_model", c, some m⟩).2.2.status
          = some "success"
      ∧ (handle_client_request d or now env ctx ⟨some "set_model", c, some m⟩).2.2.message
          = some "Model changed successfully")
    ∧ model_manager_set_model model_registry "no-such-model" = (none, -2)
    ∧ model_manager_set_model c8_disabled_registry "phi3:mini" = (none, -1)
    ∧ model_manager_set_model model_registry "phi3:mini" = (some 1, 0) :=
  ⟨fun _ _ _ _ _ _ _ => ⟨rfl, rfl, rfl⟩, by decide, by decide, by decide⟩

/-! ### Claim C10 — the default action -/

/-- C10: a well-formed request without an `action` field is handled
exactly like an explicit `interpret` request — the handler initializes
the action to `"interpret"` before looking it up — and its response is
never the unknown-action error; an unrecognized action value (here
`"frobnicate"`), by contrast, produces exactly that error response. -/
theorem C10_default_action (d : ai_daemon_t) (or : ollama_oracle) (now : Int)
    (env : os_env) (ctx : ai_context_t) (c m : Option String) :
    handle_client_request d or now env ctx ⟨none, c, m⟩
      = handle_client_request d or now env ctx ⟨some "interpret", c, m⟩
    ∧ (handle_client_request d or now env ctx ⟨none, c, m⟩).2.2 ≠ unknown_action_response
    ∧ (handle_client_request d or now env ctx ⟨some "frobnicate", c, m⟩).2.2
        = unknown_action_response := by
  refine ⟨rfl, ?_, rfl⟩
  have hred : handle_client_request d or now env ctx ⟨none, c, m⟩
      = (let ctx1 := if ai_context_needs_refresh now ctx then ai_context_update env ctx else ctx
         let ir := or.interpret (c.getD "") (ai_context_to_summary ctx1)
         if ir.1 = 0 then
           if !d.confirmation_required then
             let er := execute_command_safely d or ctx1 ir.2
             (d, er.1, { status := some "success", interpreted_command := some ir.2,
                         execution_result := some er.2.1, exit_code := some er.2.2 })
           else (d, ctx1, { status := some "success", interpreted_command := some ir.2 })
         else if ir.1 = -2 then
           (d, ctx1, { status := some "unsafe",
                       message := some "Command marked as unsafe by AI" })
         else if ir.1 = -3 then
           (d, ctx1, { status := some "unclear",
                       message := some "Command unclear, please rephrase" })
         else
           (d, ctx1, { status := some "error",
                       message := some "Failed to interpret command" })) := rfl
  rw [hred]
  dsimp only
  split_ifs <;> simp [unknown_action_response]

end AiOS
